import Mathlib

/-!
Verification of the anomaly-detection pipeline:
the feature-engineering transform (training batch path in
`from_model_to_production.py`, serving single-row path in `main.py`),
the scoring service around the loaded isolation-forest artifact, and
the training job's error handling.

Floats are embedded as exact rationals; a single-row pandas DataFrame
is an association list of named columns, a batch DataFrame an
association list of named column vectors.  The numpy noise draw is an
explicit argument (state passing for the random generator).
-/

namespace Pipeline

/-- A pandas frame with columns of values of type `α`:
for a single row `α = ℚ`, for a batch frame `α = List ℚ`. -/
abbrev Col (α : Type) := List (String × α)

/-- `df[name]`: first column with the given name, if any. -/
def getCol {α : Type} (df : Col α) (name : String) : Option α :=
  (df.find? (fun p => p.1 == name)).map Prod.snd

/-- `df[name] = v`: pandas column assignment — replaces the column in
place when the name exists, otherwise appends it at the end. -/
def setCol {α : Type} (df : Col α) (name : String) (v : α) : Col α :=
  if df.any (fun p => p.1 == name) then
    df.map (fun p => if p.1 == name then (name, v) else p)
  else
    df ++ [(name, v)]

/-- `df.drop(columns=[name])`: removes the column, keeping the order
of the remaining ones. -/
def dropCol {α : Type} (df : Col α) (name : String) : Col α :=
  df.filter (fun p => p.1 != name)

/-- `df.rename(columns={old: new})`: renames in place, order kept. -/
def renameCol {α : Type} (df : Col α) (old new : String) : Col α :=
  df.map (fun p => if p.1 == old then (new, p.2) else p)

/-- `df[[names]]`: the named columns, in the asked order.
`dflt` is never hit on the programs below (all names are present). -/
def selectCols {α : Type} (df : Col α) (names : List String) (dflt : α) : Col α :=
  names.map (fun n => (n, (getCol df n).getD dflt))

/-- Value of a column of a single row, defaulting to `0`. -/
def colVal (df : Col ℚ) (name : String) : ℚ :=
  (getCol df name).getD 0

/-- `Series.clip(lo, hi)` on one value. -/
def clip (x lo hi : ℚ) : ℚ :=
  min hi (max lo x)

/-- `Series.mean()`. -/
def mean (xs : List ℚ) : ℚ :=
  xs.sum / xs.length

/-- `engineer_single_row(temp_k, rpm)` from `main.py`, the serving-time
transform.  `noise` is the value drawn by `np.random.uniform(-0.5, 0.5)`. -/
def engineer_single_row (temp_k rpm noise : ℚ) : Col ℚ :=
  let df : Col ℚ := [("Air temperature [K]", temp_k), ("Rotational speed [rpm]", rpm)]
  let df := renameCol df "Rotational speed [rpm]" "sound_volume_proxy"
  let df := setCol df "temperature_celsius" ((getCol df "Air temperature [K]").getD 0 - 273.15)
  let df := dropCol df "Air temperature [K]"
  let base_humidity : ℚ := 45.0
  let temp_mean : ℚ := 26.85
  let rpm_mean : ℚ := 1538.0
  let temp_weight : ℚ := -0.5
  let rpm_weight : ℚ := 0.005
  let humidity :=
    base_humidity +
    (colVal df "temperature_celsius" - temp_mean) * temp_weight +
    (colVal df "sound_volume_proxy" - rpm_mean) * rpm_weight
  let df := setCol df "humidity" (clip (humidity + noise) 0 100)
  selectCols df ["sound_volume_proxy", "temperature_celsius", "humidity"] 0

/-- `engineer_features(df)` from `from_model_to_production.py`, the
training-time batch transform.  `temps` and `rpms` are the raw
`Air temperature [K]` and `Rotational speed [rpm]` columns; `noises`
is the vector drawn by `np.random.uniform(-2.5, 2.5, size=len(df))`. -/
def engineer_features (temps rpms noises : List ℚ) : Col (List ℚ) :=
  let features_df : Col (List ℚ) :=
    [("Air temperature [K]", temps), ("Rotational speed [rpm]", rpms)]
  let features_df := renameCol features_df "Rotational speed [rpm]" "sound_volume_proxy"
  let features_df := setCol features_df "temperature_celsius"
    (((getCol features_df "Air temperature [K]").getD []).map (fun t => t - 273.15))
  let features_df := dropCol features_df "Air temperature [K]"
  let base_humidity : ℚ := 45.0
  let temp_mean := mean ((getCol features_df "temperature_celsius").getD [])
  let rpm_mean := mean ((getCol features_df "sound_volume_proxy").getD [])
  let temp_weight : ℚ := -0.5
  let rpm_weight : ℚ := 0.005
  let humidity := List.zipWith
    (fun c s => base_humidity + (c - temp_mean) * temp_weight + (s - rpm_mean) * rpm_weight)
    ((getCol features_df "temperature_celsius").getD [])
    ((getCol features_df "sound_volume_proxy").getD [])
  let humidity := List.zipWith (fun h n => h + n) humidity noises
  let humidity := humidity.map (fun h => clip h 0 100)
  let features_df := setCol features_df "humidity" humidity
  selectCols features_df ["sound_volume_proxy", "temperature_celsius", "humidity"] []

/-- Row `i` of a batch frame, as a single-row frame (what
`model.predict` consumes positionally for one reading). -/
def rowAt (fr : Col (List ℚ)) (i : ℕ) : Col ℚ :=
  fr.map (fun p => (p.1, p.2.getD i 0))

/-- The serving transform in closed form. -/
theorem engineer_single_row_eq (temp_k rpm noise : ℚ) :
    engineer_single_row temp_k rpm noise =
      [("sound_volume_proxy", rpm),
       ("temperature_celsius", temp_k - 273.15),
       ("humidity",
        clip ((45.0 : ℚ) + (temp_k - 273.15 - 26.85) * (-0.5) + (rpm - 1538.0) * 0.005 + noise)
          0 100)] := by
  rfl

/-- The batch transform in closed form. -/
theorem engineer_features_eq (temps rpms noises : List ℚ) :
    engineer_features temps rpms noises =
      [("sound_volume_proxy", rpms),
       ("temperature_celsius", temps.map (fun t => t - 273.15)),
       ("humidity",
        ((List.zipWith
            (fun c s => (45.0 : ℚ) + (c - mean (temps.map (fun t => t - 273.15))) * (-0.5)
              + (s - mean rpms) * 0.005)
            (temps.map (fun t => t - 273.15)) rpms).zipWith (fun h n => h + n) noises |>.map
          (fun h => clip h 0 100)))] := by
  rfl

theorem getD_map_of_lt {α β : Type} (f : α → β) (l : List α) (i : ℕ) (d : α) (e : β)
    (hi : i < l.length) :
    (l.map f).getD i e = f (l.getD i d) := by
  simp [List.getD_eq_getElem?_getD, List.getElem?_eq_getElem hi]

theorem getD_zipWith_of_lt {α β γ : Type} (f : α → β → γ) (a : List α) (b : List β)
    (i : ℕ) (da : α) (db : β) (dc : γ) (ha : i < a.length) (hb : i < b.length) :
    (List.zipWith f a b).getD i dc = f (a.getD i da) (b.getD i db) := by
  simp [List.getD_eq_getElem?_getD, List.getElem?_zipWith,
    List.getElem?_eq_getElem ha, List.getElem?_eq_getElem hb]

theorem clip_bounds (x : ℚ) : 0 ≤ clip x 0 100 ∧ clip x 0 100 ≤ 100 :=
  ⟨le_min (by norm_num) (le_max_left 0 x), min_le_left _ _⟩

/-- C2: on both the batch (training) path and the single-row (serving)
path, the produced feature vector lists its fields in the fixed order
[sound_volume_proxy, temperature_celsius, humidity]. -/
theorem feature_order_fixed (temp_k rpm noise : ℚ) (temps rpms noises : List ℚ) :
    (engineer_single_row temp_k rpm noise).map Prod.fst =
      ["sound_volume_proxy", "temperature_celsius", "humidity"] ∧
    (engineer_features temps rpms noises).map Prod.fst =
      ["sound_volume_proxy", "temperature_celsius", "humidity"] :=
  ⟨rfl, rfl⟩

/-- C3: whatever the reading and the noise draw, the humidity feature
lies in [0, 100], on the serving path and for every entry of the batch
humidity column (the clip is applied after the noise is added). -/
theorem humidity_clamped (temp_k rpm noise : ℚ) (temps rpms noises : List ℚ) :
    (0 ≤ colVal (engineer_single_row temp_k rpm noise) "humidity" ∧
      colVal (engineer_single_row temp_k rpm noise) "humidity" ≤ 100) ∧
    ∀ h ∈ (getCol (engineer_features temps rpms noises) "humidity").getD [],
      0 ≤ h ∧ h ≤ 100 := by
  constructor
  · exact clip_bounds _
  · intro h hmem
    have : (getCol (engineer_features temps rpms noises) "humidity").getD [] =
        ((List.zipWith
            (fun c s => (45.0 : ℚ) + (c - mean (temps.map (fun t => t - 273.15))) * (-0.5)
              + (s - mean rpms) * 0.005)
            (temps.map (fun t => t - 273.15)) rpms).zipWith (fun h n => h + n) noises |>.map
          (fun h => clip h 0 100)) := rfl
    rw [this] at hmem
    rcases List.mem_map.mp hmem with ⟨x, _, hx⟩
    rw [← hx]
    exact clip_bounds x

/-- C4: the transform computes temperature_celsius = temperature_kelvin
minus 273.15 exactly and passes rotational_speed_rpm through unchanged
as sound_volume_proxy, on both the serving and the training path. -/
theorem affine_conversion_and_rename (temp_k rpm noise : ℚ) (temps rpms noises : List ℚ) :
    (colVal (engineer_single_row temp_k rpm noise) "temperature_celsius" = temp_k - 273.15 ∧
      colVal (engineer_single_row temp_k rpm noise) "sound_volume_proxy" = rpm) ∧
    ∀ i : ℕ, i < temps.length → i < rpms.length →
      colVal (rowAt (engineer_features temps rpms noises) i) "temperature_celsius" =
        temps.getD i 0 - 273.15 ∧
      colVal (rowAt (engineer_features temps rpms noises) i) "sound_volume_proxy" =
        rpms.getD i 0 := by
  refine ⟨⟨rfl, rfl⟩, fun i hit hir => ⟨?_, ?_⟩⟩
  · have : colVal (rowAt (engineer_features temps rpms noises) i) "temperature_celsius" =
        (temps.map (fun t => t - 273.15)).getD i 0 := rfl
    rw [this, getD_map_of_lt (fun t => t - 273.15) temps i 0 0 hit]
  · rfl

/-- C5: the transform is a deterministic function of the reading and
the noise source — with the noise generator supplied by the caller as
a seed-indexed source, two runs with equal seeds produce identical
feature vectors, on both paths. -/
theorem transform_reproducible (g : ℕ → ℚ) (gv : ℕ → List ℚ) (seed₁ seed₂ : ℕ)
    (temp_k rpm : ℚ) (temps rpms : List ℚ) (h : seed₁ = seed₂) :
    engineer_single_row temp_k rpm (g seed₁) = engineer_single_row temp_k rpm (g seed₂) ∧
    engineer_features temps rpms (gv seed₁) = engineer_features temps rpms (gv seed₂) := by
  rw [h]
  exact ⟨rfl, rfl⟩

theorem transform_reproducible_witness :
    engineer_single_row 300 1500 ((fun _ => (0 : ℚ)) 7) =
      engineer_single_row 300 1500 ((fun _ => (0 : ℚ)) 7) ∧
    engineer_features [300] [1500] ((fun _ => [(0 : ℚ)]) 7) =
      engineer_features [300] [1500] ((fun _ => [(0 : ℚ)]) 7) :=
  transform_reproducible (fun _ => 0) (fun _ => [0]) 7 7 300 1500 [300] [1500] rfl

/-- C1 (counterexample): the serving transform does not reuse the
training-corpus means — on the corpus with one reading
(temp_k = 273.15 K, rpm = 0) and equal noise draws (0), the training
row and the serving row differ, because `engineer_single_row`
hardcodes temp_mean = 26.85 and rpm_mean = 1538.0 while
`engineer_features` computes the corpus means (0 and 0 here). -/
theorem serving_training_calibration_mismatch :
    rowAt (engineer_features [273.15] [0] [0]) 0 ≠ engineer_single_row 273.15 0 0 := by
  rw [engineer_features_eq, engineer_single_row_eq]
  unfold rowAt
  norm_num [mean, clip, min_def, max_def]

/-- C1 (amended): for equal noise draws, the serving transform
reproduces the training-time transform on a reading exactly when the
training-corpus calibration means coincide with the constants the
serving path hardcodes (temp_mean = 26.85, rpm_mean = 1538.0). -/
theorem serving_matches_training_when_means_match
    (temps rpms noises : List ℚ) (i : ℕ)
    (hit : i < temps.length) (hir : i < rpms.length) (hin : i < noises.length)
    (hmt : mean (temps.map (fun t => t - 273.15)) = 26.85)
    (hmr : mean rpms = 1538.0) :
    rowAt (engineer_features temps rpms noises) i =
      engineer_single_row (temps.getD i 0) (rpms.getD i 0) (noises.getD i 0) := by
  have hlenC : i < (temps.map (fun t => t - 273.15)).length := by
    simpa using hit
  have hz1 : i < (List.zipWith
      (fun c s => (45.0 : ℚ) + (c - mean (temps.map (fun t => t - 273.15))) * (-0.5)
        + (s - mean rpms) * 0.005)
      (temps.map (fun t => t - 273.15)) rpms).length := by
    rw [List.length_zipWith]
    exact lt_min hlenC hir
  have hz2 : i < (List.zipWith (fun h n => h + n)
      (List.zipWith
        (fun c s => (45.0 : ℚ) + (c - mean (temps.map (fun t => t - 273.15))) * (-0.5)
          + (s - mean rpms) * 0.005)
        (temps.map (fun t => t - 273.15)) rpms) noises).length := by
    rw [List.length_zipWith]
    exact lt_min hz1 hin
  rw [engineer_features_eq, engineer_single_row_eq]
  unfold rowAt
  simp only [List.map_cons, List.map_nil]
  rw [getD_map_of_lt (fun h => clip h 0 100) _ i 0 0 hz2,
    getD_zipWith_of_lt (fun h n => h + n) _ _ i 0 0 0 hz1 hin,
    getD_zipWith_of_lt _ _ _ i 0 0 0 hlenC hir,
    getD_map_of_lt (fun t => t - 273.15) temps i 0 0 hit, hmt, hmr]

theorem serving_matches_training_when_means_match_witness :
    rowAt (engineer_features [300] [1538] [1/5]) 0 =
      engineer_single_row ([(300 : ℚ)].getD 0 0) ([(1538 : ℚ)].getD 0 0)
        ([(1/5 : ℚ)].getD 0 0) :=
  serving_matches_training_when_means_match [300] [1538] [1/5] 0
    (by decide) (by decide) (by decide) (by norm_num [mean]) (by norm_num [mean])

theorem humidity_clamped_witness :
    (0 ≤ colVal (engineer_single_row 300 1500 (1/4)) "humidity" ∧
      colVal (engineer_single_row 300 1500 (1/4)) "humidity" ≤ 100) ∧
    ∀ h ∈ (getCol (engineer_features [300] [1500] [2]) "humidity").getD [],
      0 ≤ h ∧ h ≤ 100 :=
  humidity_clamped 300 1500 (1/4) [300] [1500] [2]

theorem affine_conversion_and_rename_witness :
    (colVal (engineer_single_row 300 1500 0) "temperature_celsius" = 300 - 273.15 ∧
      colVal (engineer_single_row 300 1500 0) "sound_volume_proxy" = 1500) ∧
    ∀ i : ℕ, i < [(300 : ℚ)].length → i < [(1500 : ℚ)].length →
      colVal (rowAt (engineer_features [300] [1500] [0]) i) "temperature_celsius" =
        [(300 : ℚ)].getD i 0 - 273.15 ∧
      colVal (rowAt (engineer_features [300] [1500] [0]) i) "sound_volume_proxy" =
        [(1500 : ℚ)].getD i 0 :=
  affine_conversion_and_rename 300 1500 0 [300] [1500] [0]

/-- One sensor reading as posted to `/predict` (pydantic `SensorReading`). -/
structure SensorReading where
  temperature_k : ℚ
  rotational_speed_rpm : ℚ

/-- The body of a successful `/predict` answer (`PredictionResponse`). -/
structure PredictionResponse where
  is_anomaly : Bool
  anomaly_score : ℚ
  status : String

/-- The loaded isolation-forest artifact, as the service uses it:
`predict` and `decision_function` on one feature row (each may raise,
e.g. on a malformed feature shape), plus the fitted
`feature_names_in_` attribute read by the training script's
simulation loop. -/
structure Model where
  predict : Col ℚ → Except String ℤ
  decision_function : Col ℚ → Except String ℚ
  feature_names_in : List String

/-- What `app.post /predict` can produce: a JSON response, a raised
`HTTPException(status_code, detail)`, or an exception escaping the
handler uncaught. -/
inductive HandlerOutcome where
  | response (r : PredictionResponse)
  | httpError (status_code : ℕ) (detail : String)
  | uncaught (message : String)

/-- Python's `round` to the nearest integer, ties to even. -/
def roundHalfEven (x : ℚ) : ℤ :=
  if x - ⌊x⌋ < 1/2 then ⌊x⌋
  else if 1/2 < x - ⌊x⌋ then ⌊x⌋ + 1
  else if ⌊x⌋ % 2 = 0 then ⌊x⌋ else ⌊x⌋ + 1

/-- `round(x, 4)` from `main.py` and `from_model_to_production.py`. -/
def round4 (x : ℚ) : ℚ :=
  (roundHalfEven (x * 10000) : ℚ) / 10000

/-- The filesystem seen at startup: whether `MODEL_PATH` exists, and
the artifact `joblib.load` yields when it does. -/
structure ArtifactStore where
  model_path_exists : Bool
  load : Model

/-- `lifespan` startup from `main.py`: load the artifact if the file
exists, otherwise leave `ml_models["isolation_forest"] = None`. -/
def lifespan_startup (fs : ArtifactStore) : Option Model :=
  if fs.model_path_exists then some fs.load else none

/-- `predict_anomaly` from `main.py`.  `fe` is the feature-engineering
call on the reading (`engineer_single_row`, which may raise); its
failure is caught and mapped to a 400, while a failure inside
`model.predict` / `model.decision_function` is not caught and escapes
the handler.  The second component is the service state after the
request (the handler never writes `ml_models`). -/
def predict_anomaly (st : Option Model)
    (fe : SensorReading → Except String (Col ℚ)) (reading : SensorReading) :
    HandlerOutcome × Option Model :=
  match st with
  | none => (HandlerOutcome.httpError 503 "Model not loaded.", none)
  | some model =>
    match fe reading with
    | Except.error e =>
        (HandlerOutcome.httpError 400 ("Feature engineering failed: " ++ e), some model)
    | Except.ok processed_data =>
        match model.predict processed_data with
        | Except.error e => (HandlerOutcome.uncaught e, some model)
        | Except.ok prediction =>
            match model.decision_function processed_data with
            | Except.error e => (HandlerOutcome.uncaught e, some model)
            | Except.ok score =>
                (HandlerOutcome.response
                  { is_anomaly := prediction == -1,
                    anomaly_score := round4 score,
                    status := if prediction == -1 then "ALERT" else "OK" },
                 some model)

/-- A sequence of requests against the service, threading the state. -/
def handle_stream (st : Option Model)
    (fe : SensorReading → Except String (Col ℚ)) (rs : List SensorReading) :
    List HandlerOutcome × Option Model :=
  match rs with
  | [] => ([], st)
  | r :: rest =>
    let step := predict_anomaly st fe r
    let next := handle_stream step.2 fe rest
    (step.1 :: next.1, next.2)

/-- The body of the `run_simulation` loop in
`from_model_to_production.py` for one stream item: the lines it
prints.  Prediction failures are caught there and answered with the
model's expected feature names. -/
def run_simulation_step (model : Model) (input_df : Col ℚ) : List String :=
  match model.predict input_df with
  | Except.error e =>
      ["[ERROR] Prediction failed: " ++ e,
       "Model expects: " ++ String.intercalate " " model.feature_names_in]
  | Except.ok prediction =>
      match model.decision_function input_df with
      | Except.error e =>
          ["[ERROR] Prediction failed: " ++ e,
           "Model expects: " ++ String.intercalate " " model.feature_names_in]
      | Except.ok anomaly_score =>
          if prediction == -1 then
            ["[RESULT] ANOMALY DETECTED (Score: " ++ toString (round4 anomaly_score)
              ++ ") - Alert sent!"]
          else
            ["[RESULT] Normal Operation (Score: " ++ toString (round4 anomaly_score) ++ ")"]

theorem handle_stream_unloaded (fe : SensorReading → Except String (Col ℚ))
    (rs : List SensorReading) :
    handle_stream none fe rs =
      (rs.map (fun _ => HandlerOutcome.httpError 503 "Model not loaded."), none) := by
  induction rs with
  | nil => rfl
  | cons r rest ih => simp [handle_stream, predict_anomaly, ih]

/-- C6: with the artifact absent at startup, the service starts and
stays Unloaded through any stream of requests, and every request is
answered by the 503 "Model not loaded." rejection (an HTTP error, not
a crash). -/
theorem unloaded_service_rejects_all_requests
    (fs : ArtifactStore) (h : fs.model_path_exists = false)
    (fe : SensorReading → Except String (Col ℚ)) (rs : List SensorReading) :
    lifespan_startup fs = none ∧
    (handle_stream (lifespan_startup fs) fe rs).2 = none ∧
    ∀ o ∈ (handle_stream (lifespan_startup fs) fe rs).1,
      o = HandlerOutcome.httpError 503 "Model not loaded." := by
  have hun : lifespan_startup fs = none := by
    simp [lifespan_startup, h]
  rw [hun, handle_stream_unloaded]
  refine ⟨rfl, rfl, ?_⟩
  intro o ho
  rcases List.mem_map.mp ho with ⟨r, _, hr⟩
  exact hr.symm

/-- C7: on a successful scoring request the response is built from the
detector output as the claim states: is_anomaly iff the prediction is
-1, anomaly_score is the raw decision-function value rounded to 4
decimal places, status is "ALERT" exactly for anomalies and "OK"
otherwise, and replacing the decision-function value by any other one
leaves is_anomaly and status unchanged (rounding is presentation
only). -/
theorem success_response_mapping
    (m : Model) (fe : SensorReading → Except String (Col ℚ)) (r : SensorReading)
    (row : Col ℚ) (p : ℤ) (s : ℚ)
    (hfe : fe r = Except.ok row) (hp : m.predict row = Except.ok p)
    (hs : m.decision_function row = Except.ok s) :
    ∃ resp : PredictionResponse,
      (predict_anomaly (some m) fe r).1 = HandlerOutcome.response resp ∧
      (resp.is_anomaly = true ↔ p = -1) ∧
      resp.anomaly_score = round4 s ∧
      (resp.status = "ALERT" ↔ resp.is_anomaly = true) ∧
      (resp.status = "OK" ↔ resp.is_anomaly = false) ∧
      ∀ s2 : ℚ, ∃ resp2 : PredictionResponse,
        (predict_anomaly
            (some { m with decision_function := fun _ => Except.ok s2 }) fe r).1 =
          HandlerOutcome.response resp2 ∧
        resp2.is_anomaly = resp.is_anomaly ∧ resp2.status = resp.status := by
  refine ⟨⟨p == -1, round4 s, if p == -1 then "ALERT" else "OK"⟩, ?_, ?_, rfl, ?_, ?_, ?_⟩
  · simp [predict_anomaly, hfe, hp, hs]
  · simp
  · by_cases hc : p = -1 <;> simp [hc]
  · by_cases hc : p = -1 <;> simp [hc]
  · intro s2
    refine ⟨⟨p == -1, round4 s2, if p == -1 then "ALERT" else "OK"⟩, ?_, rfl, rfl⟩
    simp [predict_anomaly, hfe, hp]

/-- A concrete artifact whose scoring raises on every input, as a
malformed feature shape would. -/
def shapeFailModel : Model :=
  { predict := fun _ => Except.error "bad shape",
    decision_function := fun _ => Except.error "bad shape",
    feature_names_in := ["sound_volume_proxy", "temperature_celsius", "humidity"] }

/-- C8 (counterexample): when scoring fails, the serving handler does
not answer with any HTTP error payload at all — hence with none that
lists the expected feature names; the exception escapes the endpoint
uncaught with only the underlying message. -/
theorem scoring_failure_payload_has_no_feature_names :
    (predict_anomaly (some shapeFailModel)
        (fun r => Except.ok (engineer_single_row r.temperature_k r.rotational_speed_rpm 0))
        ⟨300, 1500⟩).1 = HandlerOutcome.uncaught "bad shape" ∧
    ∀ (c : ℕ) (d : String),
      (predict_anomaly (some shapeFailModel)
          (fun r => Except.ok (engineer_single_row r.temperature_k r.rotational_speed_rpm 0))
          ⟨300, 1500⟩).1 ≠ HandlerOutcome.httpError c d := by
  have h1 : (predict_anomaly (some shapeFailModel)
      (fun r => Except.ok (engineer_single_row r.temperature_k r.rotational_speed_rpm 0))
      ⟨300, 1500⟩).1 = HandlerOutcome.uncaught "bad shape" := rfl
  refine ⟨h1, ?_⟩
  intro c d hcd
  rw [h1] at hcd
  exact HandlerOutcome.noConfusion hcd

/-- C8 (amended): a scoring failure escapes the serving endpoint as an
uncaught exception carrying only the underlying message; the service
state is untouched (the failure stays scoped to the request); the
expected feature names/order are surfaced on scoring failure only by
the training script's simulation loop. -/
theorem scoring_failure_uncaught_and_isolated
    (m : Model) (fe : SensorReading → Except String (Col ℚ)) (r : SensorReading)
    (row : Col ℚ) (e : String)
    (hfe : fe r = Except.ok row) (hp : m.predict row = Except.error e) :
    (predict_anomaly (some m) fe r).1 = HandlerOutcome.uncaught e ∧
    (predict_anomaly (some m) fe r).2 = some m ∧
    run_simulation_step m row =
      ["[ERROR] Prediction failed: " ++ e,
       "Model expects: " ++ String.intercalate " " m.feature_names_in] := by
  refine ⟨?_, ?_, ?_⟩ <;> simp [predict_anomaly, run_simulation_step, hfe, hp]

/-- C9: a feature-engineering failure is answered with the 400
client error that carries the underlying cause, the service state is
unchanged, and from that same state any subsequent valid request is
answered with a normal response. -/
theorem feature_engineering_failure_isolated
    (m : Model) (fe : SensorReading → Except String (Col ℚ)) (r : SensorReading)
    (e : String) (hfe : fe r = Except.error e) :
    (predict_anomaly (some m) fe r).1 =
      HandlerOutcome.httpError 400 ("Feature engineering failed: " ++ e) ∧
    (predict_anomaly (some m) fe r).2 = some m ∧
    ∀ (fe2 : SensorReading → Except String (Col ℚ)) (r2 : SensorReading)
      (row : Col ℚ) (p : ℤ) (s : ℚ),
      fe2 r2 = Except.ok row → m.predict row = Except.ok p →
      m.decision_function row = Except.ok s →
      (predict_anomaly ((predict_anomaly (some m) fe r).2) fe2 r2).1 =
        HandlerOutcome.response
          ⟨p == -1, round4 s, if p == -1 then "ALERT" else "OK"⟩ := by
  have h2 : (predict_anomaly (some m) fe r).2 = some m := by
    simp [predict_anomaly, hfe]
  refine ⟨by simp [predict_anomaly, hfe], h2, ?_⟩
  intro fe2 r2 row p s hfe2 hp hs
  rw [h2]
  simp [predict_anomaly, hfe2, hp, hs]

/-- A concrete working artifact for witnesses: flags every row as
anomalous with raw score 1/3. -/
def stubModel : Model :=
  { predict := fun _ => Except.ok (-1),
    decision_function := fun _ => Except.ok (1/3),
    feature_names_in := ["sound_volume_proxy", "temperature_celsius", "humidity"] }

/-- The serving feature step as the endpoint really calls it, at a
fixed noise draw of 0. -/
def okFe : SensorReading → Except String (Col ℚ) :=
  fun r => Except.ok (engineer_single_row r.temperature_k r.rotational_speed_rpm 0)

theorem unloaded_service_rejects_all_requests_witness :
    lifespan_startup ⟨false, stubModel⟩ = none ∧
    (handle_stream (lifespan_startup ⟨false, stubModel⟩) okFe [⟨300, 1500⟩]).2 = none ∧
    ∀ o ∈ (handle_stream (lifespan_startup ⟨false, stubModel⟩) okFe [⟨300, 1500⟩]).1,
      o = HandlerOutcome.httpError 503 "Model not loaded." :=
  unloaded_service_rejects_all_requests ⟨false, stubModel⟩ rfl okFe [⟨300, 1500⟩]

theorem success_response_mapping_witness :
    ∃ resp : PredictionResponse,
      (predict_anomaly (some stubModel) okFe ⟨300, 1500⟩).1 =
        HandlerOutcome.response resp ∧
      (resp.is_anomaly = true ↔ (-1 : ℤ) = -1) ∧
      resp.anomaly_score = round4 (1/3) ∧
      (resp.status = "ALERT" ↔ resp.is_anomaly = true) ∧
      (resp.status = "OK" ↔ resp.is_anomaly = false) ∧
      ∀ s2 : ℚ, ∃ resp2 : PredictionResponse,
        (predict_anomaly
            (some { stubModel with decision_function := fun _ => Except.ok s2 })
            okFe ⟨300, 1500⟩).1 =
          HandlerOutcome.response resp2 ∧
        resp2.is_anomaly = resp.is_anomaly ∧ resp2.status = resp.status :=
  success_response_mapping stubModel okFe ⟨300, 1500⟩
    (engineer_single_row 300 1500 0) (-1) (1/3) rfl rfl rfl

theorem scoring_failure_uncaught_and_isolated_witness :
    (predict_anomaly (some shapeFailModel) okFe ⟨300, 1500⟩).1 =
      HandlerOutcome.uncaught "bad shape" ∧
    (predict_anomaly (some shapeFailModel) okFe ⟨300, 1500⟩).2 = some shapeFailModel ∧
    run_simulation_step shapeFailModel (engineer_single_row 300 1500 0) =
      ["[ERROR] Prediction failed: " ++ "bad shape",
       "Model expects: " ++
         String.intercalate " " shapeFailModel.feature_names_in] :=
  scoring_failure_uncaught_and_isolated shapeFailModel okFe ⟨300, 1500⟩
    (engineer_single_row 300 1500 0) "bad shape" rfl rfl

theorem feature_engineering_failure_isolated_witness :
    (predict_anomaly (some stubModel)
        (fun _ => Except.error "could not convert string to float") ⟨300, 1500⟩).1 =
      HandlerOutcome.httpError 400
        ("Feature engineering failed: " ++ "could not convert string to float") ∧
    (predict_anomaly (some stubModel)
        (fun _ => Except.error "could not convert string to float") ⟨300, 1500⟩).2 =
      some stubModel ∧
    ∀ (fe2 : SensorReading → Except String (Col ℚ)) (r2 : SensorReading)
      (row : Col ℚ) (p : ℤ) (s : ℚ),
      fe2 r2 = Except.ok row → stubModel.predict row = Except.ok p →
      stubModel.decision_function row = Except.ok s →
      (predict_anomaly
          ((predict_anomaly (some stubModel)
              (fun _ => Except.error "could not convert string to float") ⟨300, 1500⟩).2)
          fe2 r2).1 =
        HandlerOutcome.response
          ⟨p == -1, round4 s, if p == -1 then "ALERT" else "OK"⟩ :=
  feature_engineering_failure_isolated stubModel
    (fun _ => Except.error "could not convert string to float") ⟨300, 1500⟩
    "could not convert string to float" rfl

/-- The environment the training run `main()` of
`from_model_to_production.py` sees: whether the CSV is already in the
mounted volume, whether the KaggleHub download can obtain it, whether
`pd.read_csv` succeeds, and the raw Kelvin/rpm rows it then yields. -/
structure TrainEnv where
  file_exists : Bool
  download_ok : Bool
  download_err : String
  read_ok : Bool
  read_err : String
  rows : List (ℚ × ℚ)
  noises : List ℚ

/-- Observable effects of the training run. -/
inductive Event where
  | printed (line : String)
  | saved_model (path : String)
deriving DecidableEq

def MODEL_SAVE_PATH : String := "/results/isolation_forest_model.joblib"

/-- The `pd.read_csv(FILE_PATH)` step of `load_data`: the loaded rows
on success, `None` with the error line on failure. -/
def read_csv (env : TrainEnv) : Option (List (ℚ × ℚ)) × List Event :=
  if env.read_ok then
    (some env.rows, [Event.printed "Dataset loaded successfully!"])
  else
    (none, [Event.printed ("Error reading CSV file: " ++ env.read_err)])

/-- `load_data()` from `from_model_to_production.py`: reads the CSV if
present, otherwise tries the KaggleHub download first; a failed
download prints the critical error and returns `None`. -/
def load_data (env : TrainEnv) : Option (List (ℚ × ℚ)) × List Event :=
  if env.file_exists then
    read_csv env
  else if env.download_ok then
    ((read_csv env).1, Event.printed "File saved permanently." :: (read_csv env).2)
  else
    (none, [Event.printed ("CRITICAL ERROR: Automatic download failed: "
      ++ env.download_err)])

/-- `main()` of the training script: load, engineer, train, save,
simulate.  When `load_data` yields `None` the run returns at once, so
the save step — the only writer of the artifact — is never reached. -/
def main_train (env : TrainEnv) : List Event :=
  let ld := load_data env
  match ld.1 with
  | none => ld.2
  | some rows =>
    let _features_df :=
      engineer_features (rows.map Prod.fst) (rows.map Prod.snd) env.noises
    ld.2 ++
      [Event.printed "Model training complete.",
       Event.saved_model MODEL_SAVE_PATH,
       Event.printed ("Model saved to: " ++ MODEL_SAVE_PATH)]

/-- C10: when the source data is missing and the download fallback
fails, the training run stops with the critical-error message as its
only effect, and in particular no model artifact is ever written. -/
theorem training_failure_writes_no_artifact
    (env : TrainEnv) (h1 : env.file_exists = false) (h2 : env.download_ok = false) :
    main_train env =
      [Event.printed ("CRITICAL ERROR: Automatic download failed: "
        ++ env.download_err)] ∧
    ∀ p, Event.saved_model p ∉ main_train env := by
  have hld : load_data env =
      (none, [Event.printed ("CRITICAL ERROR: Automatic download failed: "
        ++ env.download_err)]) := by
    simp [load_data, h1, h2]
  have hmain : main_train env =
      [Event.printed ("CRITICAL ERROR: Automatic download failed: "
        ++ env.download_err)] := by
    simp [main_train, hld]
  refine ⟨hmain, fun p hmem => ?_⟩
  rw [hmain] at hmem
  simp at hmem

theorem training_failure_writes_no_artifact_witness :
    main_train ⟨false, false, "404 Not Found", true, "", [], []⟩ =
      [Event.printed ("CRITICAL ERROR: Automatic download failed: "
        ++ "404 Not Found")] ∧
    ∀ p, Event.saved_model p ∉
      main_train ⟨false, false, "404 Not Found", true, "", [], []⟩ :=
  training_failure_writes_no_artifact ⟨false, false, "404 Not Found", true, "", [], []⟩
    rfl rfl

end Pipeline
